import Mathlib

/-!
Verification of the physics / character-movement core of the ZombiesGame
repository (src/physics/PhysicsWorld.js, src/player/Player.js,
src/player/Movement.js), shallowly embedded in Lean 4.

JavaScript numbers are modelled as exact rationals (ℚ) where the code is
square-root-free, and as reals (ℝ) where the code calls `length()` /
`normalize()` (which involve square roots).  Three.js `Vector3` is the
`Vec3` structure below; hidden mutation in the JS code becomes explicit
state passing.  The JS idiom `a || d` on numbers (default when the field
is falsy, i.e. `0` or absent) is modelled by `jsOr`.
-/

/-- Three.js `Vector3`, parameterised over the scalar type. -/
structure Vec3 (α : Type) where
  x : α
  y : α
  z : α
deriving DecidableEq, Repr

namespace Vec3

variable {α : Type} [Field α]

/-- `Vector3.add` -/
def add (a b : Vec3 α) : Vec3 α := ⟨a.x + b.x, a.y + b.y, a.z + b.z⟩

/-- `Vector3.sub` -/
def sub (a b : Vec3 α) : Vec3 α := ⟨a.x - b.x, a.y - b.y, a.z - b.z⟩

/-- `Vector3.multiplyScalar` -/
def smul (s : α) (a : Vec3 α) : Vec3 α := ⟨s * a.x, s * a.y, s * a.z⟩

/-- `Vector3.dot` -/
def dot (a b : Vec3 α) : α := a.x * b.x + a.y * b.y + a.z * b.z

/-- `Vector3.multiplyScalar (-1)`, used to invert a contact normal. -/
def neg (a : Vec3 α) : Vec3 α := ⟨-a.x, -a.y, -a.z⟩

/-- Squared Euclidean length (`Vector3.lengthSq`). -/
def lengthSq (a : Vec3 α) : α := a.x * a.x + a.y * a.y + a.z * a.z

end Vec3

/-- `Vector3.length` over the reals. -/
noncomputable def Vec3.length (a : Vec3 ℝ) : ℝ := Real.sqrt a.lengthSq

/-- `Vector3.distanceTo` over the reals. -/
noncomputable def Vec3.distanceTo (a b : Vec3 ℝ) : ℝ := (a.sub b).length

/-- The JavaScript numeric default idiom `a || d`: yields `d` when `a`
is falsy (`0`, or the field is absent — absent fields are modelled as
`0` here), otherwise `a`. -/
def jsOr {α : Type} [Field α] [DecidableEq α] (a d : α) : α :=
  if a = 0 then d else a

/-- Three.js `Vector3.normalize`: `divideScalar (length || 1)`, so the
zero vector is left unchanged. -/
noncomputable def Vec3.normalize (a : Vec3 ℝ) : Vec3 ℝ :=
  Vec3.smul (1 / jsOr a.length 1) a

/-- A `PhysicsBody` as the physics world sees it: the fields read and
written by `PhysicsWorld.checkWorldBounds` and
`PhysicsWorld.resolveCollision`.  `isPlayerBody` models the identity
test `bodyA === this.engine.player?.physicsBody`. -/
structure Body (α : Type) where
  position : Vec3 α
  velocity : Vec3 α
  invMass : α
  restitution : α
  radius : α
  onGround : Bool
  isStatic : Bool
  isPlayerBody : Bool
deriving DecidableEq, Repr

namespace PhysicsWorld

/-- `PhysicsWorld.groundThreshold` (constructor, PhysicsWorld.js). -/
def groundThreshold : ℚ := 15 / 100

/-- `PhysicsWorld.checkWorldBounds(body)` (PhysicsWorld.js lines
150–174): ground handling near `y = 0`.  Mutation of `body` becomes
returning the updated body. -/
def checkWorldBounds (body : Body ℚ) : Body ℚ :=
  if body.position.y < groundThreshold then
    -- Position correction - more height to avoid sticking
    let body :=
      if body.position.y < 0 then
        { body with position := { body.position with y := 5 / 100 } }
      else body
    -- Only mark as on ground if velocity is low or downward
    if body.velocity.y ≤ 1 / 10 then
      let body := { body with onGround := true }
      if body.velocity.y < 0 then
        { body with velocity := { body.velocity with y := 0 } }
      else body
    else body
  else
    { body with onGround := false }

/-- The fixed-timestep catch-up loop in `PhysicsWorld.update`
(PhysicsWorld.js lines 89–92): while `accumulator >= fixedTimeStep`,
run `fixedUpdate(fixedTimeStep)` and subtract the step.  The returned
list records the argument of each `fixedUpdate` call, in order.  The
JS loop never terminates when `fixedTimeStep ≤ 0`; the loop guard here
carries `0 < h` so the function is total (all claims assume a positive
timestep, `1 / physicsFPS`). -/
def runFixedLoop (h : ℚ) (acc : ℚ) : ℚ × List ℚ :=
  if hc : 0 < h ∧ h ≤ acc then
    let r := runFixedLoop h (acc - h)
    (r.1, h :: r.2)
  else
    (acc, [])
termination_by (⌊acc / h⌋).toNat
decreasing_by
  obtain ⟨hh, hle⟩ := hc
  have hne : h ≠ 0 := ne_of_gt hh
  have hdiv : (acc - h) / h = acc / h - 1 := by
    field_simp
  have hfloor : ⌊(acc - h) / h⌋ = ⌊acc / h⌋ - 1 := by
    rw [hdiv]
    exact_mod_cast Int.floor_sub_int (acc / h) 1
  have hone : (1 : ℚ) ≤ acc / h := (one_le_div hh).mpr hle
  have hge : (1 : ℤ) ≤ ⌊acc / h⌋ := by
    exact_mod_cast Int.le_floor.mpr (by exact_mod_cast hone)
  rw [hfloor]
  omega

/-- `PhysicsWorld.update(deltaTime)` (PhysicsWorld.js lines 85–93):
add `deltaTime` to the accumulator, then run the catch-up loop.
Returns the final accumulator and the list of `fixedUpdate`
arguments. -/
def update (h acc deltaTime : ℚ) : ℚ × List ℚ :=
  runFixedLoop h (acc + deltaTime)

end PhysicsWorld

/-- An argument to `PhysicsWorld.addBody`: either an actual
`PhysicsBody` instance or any other object (the
`!(body instanceof PhysicsBody)` test). -/
inductive AddArg where
  | body (b : Body ℚ)
  | notABody
deriving DecidableEq

namespace PhysicsWorld

/-- The parts of the `PhysicsWorld` state touched by `addBody`
(PhysicsWorld.js lines 31–45): the dynamic and static collections plus
the `console.error` log. -/
structure World where
  bodies : List (Body ℚ)
  staticBodies : List (Body ℚ)
  errorLog : List String
deriving DecidableEq

/-- `PhysicsWorld.addBody(body)` (PhysicsWorld.js lines 31–45):
a non-`PhysicsBody` argument is logged and `null` (`none`) is returned
with the collections untouched; otherwise the body is appended to the
static or dynamic collection per `isStatic` and returned.  The function
is total: no exception propagates. -/
def addBody (w : World) (arg : AddArg) : World × Option (Body ℚ) :=
  match arg with
  | AddArg.notABody =>
      ({ w with errorLog := w.errorLog ++
          ["Trying to add a non-PhysicsBody object to the physics world"] },
       none)
  | AddArg.body b =>
      if b.isStatic then
        ({ w with staticBodies := w.staticBodies ++ [b] }, some b)
      else
        ({ w with bodies := w.bodies ++ [b] }, some b)

/-- Contact information `{normal, depth}` returned by a body's
`checkCollision` probe. -/
structure CollisionInfo where
  normal : Vec3 ℝ
  depth : ℝ

/-- The contact-info probing at the top of `resolveCollision`
(PhysicsWorld.js lines 202–216): prefer `bodyA.checkCollision(bodyB)`;
otherwise use `bodyB.checkCollision(bodyA)` with the normal inverted
(`collisionInfo.normal.multiplyScalar(-1)`).  The two probe results are
passed in as `infoA` / `infoB`: `PhysicsBody.checkCollision` lives in
PhysicsBody.js, whose body is not among the sources here. -/
noncomputable def effectiveInfo (infoA infoB : Option CollisionInfo) :
    Option CollisionInfo :=
  match infoA with
  | some i => some i
  | none =>
    match infoB with
    | some i => some { i with normal := i.normal.neg }
    | none => none

/-- The explicit-contact-info path of `PhysicsWorld.resolveCollision`
(PhysicsWorld.js lines 219–288), returning the updated pair
`(bodyA, bodyB)`.  `collider.updatePosition` only syncs the collider
and has no effect on the body state modelled here. -/
noncomputable def resolveWithInfo (bodyA bodyB : Body ℝ)
    (info : CollisionInfo) : Body ℝ × Body ℝ :=
  let normal := info.normal
  let depth := info.depth
  let relativeVelocity := bodyA.velocity.sub bodyB.velocity
  let velAlongNormal := relativeVelocity.dot normal
  -- Only resolve if objects are moving toward each other
  if 0 < velAlongNormal then (bodyA, bodyB)
  else
    let restitution := min (jsOr bodyA.restitution 0) (jsOr bodyB.restitution 0)
    let invMassA := jsOr bodyA.invMass 0
    let invMassB := jsOr bodyB.invMass 0
    let invMassSum := invMassA + invMassB
    if invMassSum = 0 then (bodyA, bodyB) -- Both static - should not happen
    else
      let j := -(1 + restitution) * velAlongNormal / invMassSum
      let impulse := Vec3.smul j normal
      let bodyA :=
        if 0 < invMassA then
          { bodyA with velocity := bodyA.velocity.add (Vec3.smul invMassA impulse) }
        else bodyA
      let bodyB :=
        if 0 < invMassB then
          { bodyB with velocity := bodyB.velocity.sub (Vec3.smul invMassB impulse) }
        else bodyB
      -- Correct position (prevent sinking)
      let corrected :=
        if 0 < depth then
          let correction := Vec3.smul (depth * 1) normal
          let bodyA :=
            if 0 < invMassA then
              { bodyA with position :=
                  bodyA.position.add (Vec3.smul (invMassA / invMassSum) correction) }
            else bodyA
          let bodyB :=
            if 0 < invMassB then
              { bodyB with position :=
                  bodyB.position.sub (Vec3.smul (invMassB / invMassSum) correction) }
            else bodyB
          (bodyA, bodyB)
        else (bodyA, bodyB)
      -- Update ground state if collision normal points mostly upward
      let bodyA := corrected.1
      let bodyB := corrected.2
      let bodyA :=
        if 7 / 10 < normal.y ∧ bodyA.isPlayerBody = true then
          { bodyA with onGround := true }
        else bodyA
      (bodyA, bodyB)

/-- The sphere-fallback path of `PhysicsWorld.resolveCollision`
(PhysicsWorld.js lines 292–357), used when neither body produced
explicit contact info. -/
noncomputable def resolveFallback (bodyA bodyB : Body ℝ) :
    Body ℝ × Body ℝ :=
  let normal := (bodyA.position.sub bodyB.position).normalize
  let relativeVelocity := bodyA.velocity.sub bodyB.velocity
  let velAlongNormal := relativeVelocity.dot normal
  -- Only resolve if objects are moving toward each other
  if 0 < velAlongNormal then (bodyA, bodyB)
  else
    let e := min (jsOr bodyA.restitution (3 / 10)) (jsOr bodyB.restitution (3 / 10))
    let j := -(1 + e) * velAlongNormal
    let invMassSum := jsOr bodyA.invMass 0 + jsOr bodyB.invMass 0
    if invMassSum = 0 then (bodyA, bodyB) -- Both static
    else
      let impulse := j / invMassSum
      let impulseVec := Vec3.smul impulse normal
      let bodyA :=
        if 0 < bodyA.invMass then
          { bodyA with velocity :=
              bodyA.velocity.add (Vec3.smul bodyA.invMass impulseVec) }
        else bodyA
      let bodyB :=
        if 0 < bodyB.invMass then
          { bodyB with velocity :=
              bodyB.velocity.sub (Vec3.smul bodyB.invMass impulseVec) }
        else bodyB
      -- Correct position (prevent sinking)
      let minDist := jsOr bodyA.radius (1 / 2) + jsOr bodyB.radius (1 / 2)
      let dist := bodyA.position.distanceTo bodyB.position
      let correction := max (minDist - dist) 0 * (8 / 10)
      let corrected :=
        if 0 < correction then
          let correctionVec := Vec3.smul correction normal
          let corrA := Vec3.smul (bodyA.invMass / invMassSum) correctionVec
          let corrB := Vec3.smul (bodyB.invMass / invMassSum) correctionVec
          let bodyA :=
            if 0 < bodyA.invMass then
              { bodyA with position := bodyA.position.add corrA }
            else bodyA
          let bodyB :=
            if 0 < bodyB.invMass then
              { bodyB with position := bodyB.position.sub corrB }
            else bodyB
          (bodyA, bodyB)
        else (bodyA, bodyB)
      -- Update ground state
      let bodyA := corrected.1
      let bodyB := corrected.2
      let bodyA :=
        if 7 / 10 < normal.y ∧ bodyA.isPlayerBody = true then
          { bodyA with onGround := true }
        else bodyA
      (bodyA, bodyB)

/-- `PhysicsWorld.resolveCollision(bodyA, bodyB)` (PhysicsWorld.js
lines 201–357): probe for explicit contact info, use it if present,
otherwise fall back to the sphere approximation. -/
noncomputable def resolveCollision (bodyA bodyB : Body ℝ)
    (infoA infoB : Option CollisionInfo) : Body ℝ × Body ℝ :=
  match effectiveInfo infoA infoB with
  | some info => resolveWithInfo bodyA bodyB info
  | none => resolveFallback bodyA bodyB

end PhysicsWorld

namespace Movement

/-- `Movement` tuning constants (Movement.js constructor). -/
def walkSpeed : ℝ := 6
def runSpeed : ℝ := 10
def maxSpeed : ℝ := 12
def groundAcceleration : ℝ := 150
def airAcceleration : ℝ := 20
def stopAcceleration : ℝ := 200
noncomputable def momentumRetention : ℝ := 1 / 2
def dirChangeBoostMultiplier : ℝ := 3
noncomputable def jumpBoostForward : ℝ := 1 / 5
noncomputable def airControl : ℝ := 9 / 10

/-- The `newVelocity` computed by
`Movement.applyAccelerationWithMomentum` (Movement.js lines 135–176)
before the maximum-speed clamp: the momentum-retention blend on a
direction change at speed, otherwise acceleration toward the target by
`min(accel * dt, 1)` of the remaining delta. -/
noncomputable def preClampVelocity (onGround hasChangedDirection : Bool)
    (targetVelocity velocity : Vec3 ℝ) (dt : ℝ) : Vec3 ℝ :=
  let currentVelocity : Vec3 ℝ := ⟨velocity.x, 0, velocity.z⟩
  let currentSpeed := currentVelocity.length
  if hasChangedDirection = true ∧ 2 < currentSpeed then
    -- Momentum preservation - keep percentage of current velocity
    (Vec3.smul momentumRetention currentVelocity).add
      (Vec3.smul (1 - momentumRetention) targetVelocity)
  else
    let accel := if onGround then groundAcceleration else airAcceleration
    let accel :=
      if currentSpeed < 2 ∨ hasChangedDirection = true then
        accel * dirChangeBoostMultiplier
      else accel
    let accel := if onGround then accel else accel * airControl
    let velocityDelta := targetVelocity.sub currentVelocity
    let velocityDelta := Vec3.smul (min (accel * dt) 1) velocityDelta
    currentVelocity.add velocityDelta

/-- The maximum-speed clamp in `applyAccelerationWithMomentum`
(Movement.js lines 179–182). -/
noncomputable def clampMax (v : Vec3 ℝ) : Vec3 ℝ :=
  let newSpeed := v.length
  if maxSpeed < newSpeed then Vec3.smul (maxSpeed / newSpeed) v else v

/-- `Movement.applyAccelerationWithMomentum(deltaTime)` (Movement.js
lines 133–196): compute the new velocity, clamp it, write only the X
and Z components of the body velocity, then add the small forward jump
boost when `isJumping && jumpCount === 1` (resetting `isJumping`).
Returns the body's new velocity and the updated `isJumping` flag. -/
noncomputable def applyAccelerationWithMomentum
    (onGround isJumping : Bool) (jumpCount : ℕ)
    (hasChangedDirection : Bool) (moveDirection targetVelocity : Vec3 ℝ)
    (velocity : Vec3 ℝ) (dt : ℝ) : Vec3 ℝ × Bool :=
  let newVelocity := preClampVelocity onGround hasChangedDirection
      targetVelocity velocity dt
  let newVelocity := clampMax newVelocity
  -- Apply to physics body (only X and Z)
  let velocity : Vec3 ℝ := ⟨newVelocity.x, velocity.y, newVelocity.z⟩
  if isJumping = true ∧ jumpCount = 1 then
    let forwardBoost := Vec3.smul (jumpBoostForward * walkSpeed) moveDirection
    (⟨velocity.x + forwardBoost.x, velocity.y, velocity.z + forwardBoost.z⟩,
     false)
  else (velocity, isJumping)

/-- `Movement.applyStopForce(deltaTime)` (Movement.js lines 201–227):
decelerate the horizontal velocity toward zero, snapping to zero below
speed 0.1; only X and Z are written. -/
noncomputable def applyStopForce (onGround : Bool) (velocity : Vec3 ℝ)
    (dt : ℝ) : Vec3 ℝ :=
  let horizontalVelocity : Vec3 ℝ := ⟨velocity.x, 0, velocity.z⟩
  let speed := horizontalVelocity.length
  if speed < 1 / 10 then ⟨0, velocity.y, 0⟩
  else
    let stopAccel :=
      if onGround then stopAcceleration else stopAcceleration * (2 / 10)
    let deceleration := min speed (stopAccel * dt)
    let direction := horizontalVelocity.normalize
    ⟨velocity.x - direction.x * deceleration, velocity.y,
     velocity.z - direction.z * deceleration⟩

/-- `Movement.update(deltaTime)` (Movement.js lines 47–82) restricted
to its effect on the body velocity.  `moveDirection` (the world-space
unit direction, computed by `calculateMoveDirection` from the input
axes and the view yaw, a trigonometric rotation) and
`hasChangedDirection` (maintained by `detectDirectionChange` from
wall-clock timestamps) are taken as inputs; `hasInput` models
`moveInput.lengthSq() > 0`.  Returns the body's new velocity and the
updated `isJumping` flag. -/
noncomputable def update (hasInput isSprinting onGround isJumping : Bool)
    (jumpCount : ℕ) (hasChangedDirection : Bool)
    (moveDirection velocity : Vec3 ℝ) (dt : ℝ) : Vec3 ℝ × Bool :=
  if hasInput then
    -- Calculate target velocity with speed
    let speed := if isSprinting then runSpeed else walkSpeed
    let targetVelocity := Vec3.smul speed moveDirection
    applyAccelerationWithMomentum onGround isJumping jumpCount
      hasChangedDirection moveDirection targetVelocity velocity dt
  else
    (applyStopForce onGround velocity dt, isJumping)

end Movement

namespace Player

/-- The jump-relevant part of the `Player` state (Player.js
constructor), together with the vertical velocity of the player's
physics body. -/
structure PlayerState where
  onGround : Bool
  jumpCount : ℕ
  maxJumps : ℕ
  lastJumpTime : ℚ
  jumpRequested : Bool
  jumpBufferTime : ℚ
  lastGroundedTime : ℚ
  velY : ℚ
  isJumping : Bool
  isDead : Bool
deriving DecidableEq, Repr

/-- `Player.jumpBufferWindow` (ms). -/
def jumpBufferWindow : ℚ := 200

/-- `Player.coyoteTime` (ms). -/
def coyoteTime : ℚ := 150

/-- `Movement.jumpForce`. -/
def jumpForce : ℚ := 15 / 2

/-- `Player.processJump()` (Player.js lines 115–147).  `currentTime`
models `performance.now()`; `moving` models
`movement.moveDirection.lengthSq() > 0` inside
`Movement.applyJumpBoost` (Movement.js lines 259–263), which sets
`isJumping` when the player is grounded and moving.  Returns the new
state and whether a jump was produced. -/
def processJump (s : PlayerState) (currentTime : ℚ) (moving : Bool) :
    PlayerState × Bool :=
  let inCoyoteTime := currentTime - s.lastGroundedTime < coyoteTime
  let canFirstJump := s.onGround = true ∨ inCoyoteTime
  -- Don't allow jump spam - small cooldown between jumps
  if currentTime - s.lastJumpTime < 100 then (s, false)
  else if canFirstJump ∧ s.jumpCount = 0 then
    -- First jump - apply force and forward boost
    ({ s with
        velY := jumpForce
        jumpCount := 1
        lastJumpTime := currentTime
        isJumping :=
          if moving = true ∧ s.onGround = true then true else s.isJumping },
     true)
  else if ¬ canFirstJump ∧ s.jumpCount < s.maxJumps then
    -- Double jump in air - slightly weaker second jump
    ({ s with
        velY := jumpForce * (9 / 10)
        jumpCount := s.jumpCount + 1
        lastJumpTime := currentTime }, true)
  else (s, false)

/-- The ground-state tracking at the top of `Player.update` (Player.js
lines 242–253): copy `onGround` from the physics body, reset the jump
count on the airborne-to-grounded transition, and record the time of
the grounded-to-airborne transition for coyote time. -/
def trackGroundState (s : PlayerState) (currentTime : ℚ)
    (physBodyOnGround : Bool) : PlayerState :=
  let wasOnGround := s.onGround
  let s := { s with onGround := physBodyOnGround }
  let s :=
    if s.onGround = true ∧ wasOnGround = false then { s with jumpCount := 0 }
    else s
  if s.onGround = false ∧ wasOnGround = true then
    { s with lastGroundedTime := currentTime }
  else s

/-- The jump-relevant part of `Player.update(deltaTime)` (Player.js
lines 231–268): early-out when dead, track the ground state, then
process a pending jump request inside the buffer window, discarding an
expired request.  Returns the new state and whether a jump was
produced. -/
def updateJump (s : PlayerState) (currentTime : ℚ)
    (physBodyOnGround : Bool) (moving : Bool) : PlayerState × Bool :=
  if s.isDead = true then (s, false)
  else
    let s := trackGroundState s currentTime physBodyOnGround
    if s.jumpRequested = true then
      if currentTime - s.jumpBufferTime < jumpBufferWindow then
        let r := processJump s currentTime moving
        if r.2 then ({ r.1 with jumpRequested := false }, true)
        else (r.1, false)
      else
        -- Jump buffer expired
        ({ s with jumpRequested := false }, false)
    else (s, false)

/-- The exact condition under which `processJump` produces a jump:
the 100 ms cooldown has elapsed, and either a first jump (grounded or
within the 150 ms coyote window, with jump count 0) or an air jump
(neither grounded nor in coyote time, with jump count below
`maxJumps`) is available. -/
def canJumpNow (s : PlayerState) (currentTime : ℚ) : Prop :=
  100 ≤ currentTime - s.lastJumpTime ∧
  ((s.onGround = true ∨ currentTime - s.lastGroundedTime < coyoteTime) ∧
      s.jumpCount = 0 ∨
    ¬ (s.onGround = true ∨ currentTime - s.lastGroundedTime < coyoteTime) ∧
      s.jumpCount < s.maxJumps)

instance (s : PlayerState) (t : ℚ) : Decidable (canJumpNow s t) := by
  unfold canJumpNow
  infer_instance

end Player

/-- Concrete body refuting C2 as stated: `position.y = 0.1 < 0.15` and
`velocity.y = 5 > 0.1`, previously on the ground. -/
def risingBody : Body ℚ :=
  ⟨⟨0, 1 / 10, 0⟩, ⟨0, 5, 0⟩, 1, 0, 1 / 2, true, false, true⟩

/-- A rising body below `y = 0` (C10 witness input). -/
def risingBelowZeroBody : Body ℚ :=
  ⟨⟨1, -1 / 10, 2⟩, ⟨0, 5, 0⟩, 1, 0, 1 / 2, true, false, true⟩

/-- A sinking body just below the ground plane (C2 witness input). -/
def sinkingBody : Body ℚ :=
  ⟨⟨0, -1 / 100, 0⟩, ⟨0, -3, 0⟩, 1, 0, 1 / 2, false, false, true⟩

/-- A falling dynamic body (resolver witness input). -/
noncomputable def fallingBodyA : Body ℝ :=
  ⟨⟨0, 1, 0⟩, ⟨0, -5, 0⟩, 1, 0, 1 / 2, false, false, true⟩

/-- A static floor body (resolver witness input). -/
noncomputable def staticBodyB : Body ℝ :=
  ⟨⟨0, 0, 0⟩, ⟨0, 0, 0⟩, 0, 1 / 2, 1 / 2, false, true, false⟩

/-- An upward contact of depth 0 (resolver witness input). -/
noncomputable def upContact : PhysicsWorld.CollisionInfo :=
  ⟨⟨0, 1, 0⟩, 0⟩

section GroundBounds

open PhysicsWorld

/-- C10: for a body below the ground threshold whose vertical velocity
exceeds the 0.1 tolerance, `checkWorldBounds` leaves `onGround` and the
velocity untouched and only lifts `position.y` to 0.05 when it was
negative. -/
theorem checkWorldBounds_rising_keeps_ground_state (b : Body ℚ)
    (h1 : b.position.y < 15 / 100) (h2 : 1 / 10 < b.velocity.y) :
    (checkWorldBounds b).onGround = b.onGround ∧
    (checkWorldBounds b).velocity = b.velocity ∧
    (checkWorldBounds b).position.x = b.position.x ∧
    (checkWorldBounds b).position.z = b.position.z ∧
    (checkWorldBounds b).position.y =
      (if b.position.y < 0 then 5 / 100 else b.position.y) := by
  have hv : ¬ (b.velocity.y ≤ 1 / 10) := not_le.mpr h2
  simp only [checkWorldBounds, groundThreshold]
  split_ifs <;> simp_all

/-- Witness for C10 at a concrete rising body below `y = 0`. -/
theorem checkWorldBounds_rising_keeps_ground_state_witness :
    (checkWorldBounds risingBelowZeroBody).onGround =
      risingBelowZeroBody.onGround ∧
    (checkWorldBounds risingBelowZeroBody).velocity =
      risingBelowZeroBody.velocity ∧
    (checkWorldBounds risingBelowZeroBody).position.x =
      risingBelowZeroBody.position.x ∧
    (checkWorldBounds risingBelowZeroBody).position.z =
      risingBelowZeroBody.position.z ∧
    (checkWorldBounds risingBelowZeroBody).position.y =
      (if risingBelowZeroBody.position.y < 0 then 5 / 100
       else risingBelowZeroBody.position.y) :=
  checkWorldBounds_rising_keeps_ground_state risingBelowZeroBody
    (by norm_num [risingBelowZeroBody]) (by norm_num [risingBelowZeroBody])

/-- C2 counterexample: `risingBody` is not in the
`position.y < 0.15 ∧ velocity.y ≤ 0.1` case (so by the claim it should
end with `onGround = false`), yet `checkWorldBounds` leaves
`onGround = true`. -/
theorem checkWorldBounds_other_case_not_false :
    ¬ (risingBody.position.y < 15 / 100 ∧ risingBody.velocity.y ≤ 1 / 10) ∧
    (checkWorldBounds risingBody).onGround = true := by
  constructor
  · intro hcl
    have := hcl.2
    norm_num [risingBody] at this
  · norm_num [checkWorldBounds, groundThreshold, risingBody]

/-- C2 (amended): if `position.y < 0.15` and `velocity.y ≤ 0.1` then
afterwards `onGround = true`, `velocity.y ≥ 0`, and a negative
`position.y` is corrected to 0.05; if `position.y ≥ 0.15` the body ends
with `onGround = false`; in the remaining case (`position.y < 0.15`,
`velocity.y > 0.1`) `onGround` retains its previous value. -/
theorem checkWorldBounds_ground_cases (b : Body ℚ) :
    (b.position.y < 15 / 100 → b.velocity.y ≤ 1 / 10 →
      (checkWorldBounds b).onGround = true ∧
      0 ≤ (checkWorldBounds b).velocity.y ∧
      (b.position.y < 0 → (checkWorldBounds b).position.y = 5 / 100)) ∧
    (15 / 100 ≤ b.position.y → (checkWorldBounds b).onGround = false) ∧
    (b.position.y < 15 / 100 → 1 / 10 < b.velocity.y →
      (checkWorldBounds b).onGround = b.onGround) := by
  refine ⟨fun h1 h2 => ?_, fun h3 => ?_, fun h1 h2 => ?_⟩
  · simp only [checkWorldBounds, groundThreshold]
    split_ifs <;> simp_all
  · simp only [checkWorldBounds, groundThreshold]
    rw [if_neg (not_lt.mpr h3)]
  · have hv : ¬ (b.velocity.y ≤ 1 / 10) := not_le.mpr h2
    simp only [checkWorldBounds, groundThreshold]
    split_ifs <;> simp_all

/-- Witness for the amended C2 at a concrete sinking body. -/
theorem checkWorldBounds_ground_cases_witness :
    (checkWorldBounds sinkingBody).onGround = true ∧
    0 ≤ (checkWorldBounds sinkingBody).velocity.y ∧
    (sinkingBody.position.y < 0 →
      (checkWorldBounds sinkingBody).position.y = 5 / 100) :=
  (checkWorldBounds_ground_cases sinkingBody).1
    (by norm_num [sinkingBody]) (by norm_num [sinkingBody])

end GroundBounds

section FixedTimestep

/-- Characterisation of the catch-up loop: starting from a nonnegative
accumulator it performs `⌊acc / h⌋` iterations, each passing `h`, and
leaves `acc - ⌊acc / h⌋ * h`. -/
theorem runFixedLoop_eq (h : ℚ) (hh : 0 < h) :
    ∀ n : ℕ, ∀ acc : ℚ, 0 ≤ acc → (⌊acc / h⌋).toNat = n →
      PhysicsWorld.runFixedLoop h acc =
        (acc - ⌊acc / h⌋ * h, List.replicate n h) := by
  intro n
  induction n with
  | zero =>
    intro acc hacc hn
    have h0 : 0 ≤ ⌊acc / h⌋ := Int.floor_nonneg.mpr (div_nonneg hacc hh.le)
    have hfl : ⌊acc / h⌋ = 0 := by omega
    have hlt : ¬ (h ≤ acc) := by
      intro hge
      have h1 : (1 : ℚ) ≤ acc / h := (one_le_div hh).mpr hge
      have h2 : (1 : ℤ) ≤ ⌊acc / h⌋ := by
        exact_mod_cast Int.le_floor.mpr (by exact_mod_cast h1)
      omega
    rw [PhysicsWorld.runFixedLoop, dif_neg (by tauto)]
    simp [hfl]
  | succ n ih =>
    intro acc hacc hn
    have h0 : 0 ≤ ⌊acc / h⌋ := Int.floor_nonneg.mpr (div_nonneg hacc hh.le)
    have h1 : (1 : ℤ) ≤ ⌊acc / h⌋ := by omega
    have hge : h ≤ acc := by
      have hq : (1 : ℚ) ≤ acc / h := by
        calc (1 : ℚ) ≤ (⌊acc / h⌋ : ℚ) := by exact_mod_cast h1
        _ ≤ acc / h := Int.floor_le _
      exact (one_le_div hh).mp hq
    have hne : h ≠ 0 := ne_of_gt hh
    have hfl : ⌊(acc - h) / h⌋ = ⌊acc / h⌋ - 1 := by
      have hdiv : (acc - h) / h = acc / h - 1 := by field_simp
      rw [hdiv]
      exact_mod_cast Int.floor_sub_int (acc / h) 1
    have ihn : (⌊(acc - h) / h⌋).toNat = n := by omega
    rw [PhysicsWorld.runFixedLoop, dif_pos ⟨hh, hge⟩]
    rw [ih (acc - h) (sub_nonneg.mpr hge) ihn]
    refine Prod.ext ?_ ?_
    · show acc - h - (⌊(acc - h) / h⌋ : ℚ) * h = acc - (⌊acc / h⌋ : ℚ) * h
      rw [hfl]
      push_cast
      ring
    · show h :: List.replicate n h = List.replicate (n + 1) h
      rw [List.replicate_succ]

/-- C3: `PhysicsWorld.update` with a positive fixed timestep `h`, a
nonnegative accumulator and `deltaTime ≥ 0` calls `fixedUpdate` exactly
`⌊(accumulator + deltaTime) / h⌋` times, each time with argument `h`,
and afterwards the accumulator lies in `[0, h)` — so simulated time
advances only in whole multiples of the fixed timestep. -/
theorem physicsWorld_update_fixed_timestep (h acc dt : ℚ) (hh : 0 < h)
    (hacc : 0 ≤ acc) (hdt : 0 ≤ dt) :
    (PhysicsWorld.update h acc dt).2 =
      List.replicate (⌊(acc + dt) / h⌋).toNat h ∧
    0 ≤ (PhysicsWorld.update h acc dt).1 ∧
    (PhysicsWorld.update h acc dt).1 < h := by
  have hs : 0 ≤ acc + dt := add_nonneg hacc hdt
  have heq := runFixedLoop_eq h hh (⌊(acc + dt) / h⌋).toNat (acc + dt) hs rfl
  unfold PhysicsWorld.update
  rw [heq]
  have hne : h ≠ 0 := ne_of_gt hh
  have key : acc + dt - (⌊(acc + dt) / h⌋ : ℚ) * h
      = h * Int.fract ((acc + dt) / h) := by
    rw [Int.fract]
    field_simp
    ring
  refine ⟨rfl, ?_, ?_⟩
  · rw [key]
    exact mul_nonneg hh.le (Int.fract_nonneg _)
  · rw [key]
    calc h * Int.fract ((acc + dt) / h) < h * 1 :=
          (mul_lt_mul_left hh).mpr (Int.fract_lt_one _)
      _ = h := mul_one h

/-- Witness for C3: a step of 1/2, accumulator 1/4, delta 2 yields four
fixed updates and a final accumulator in `[0, 1/2)`. -/
theorem physicsWorld_update_fixed_timestep_witness :
    (PhysicsWorld.update (1 / 2) (1 / 4) 2).2 =
      List.replicate (⌊((1 / 4 : ℚ) + 2) / (1 / 2)⌋).toNat (1 / 2) ∧
    0 ≤ (PhysicsWorld.update (1 / 2) (1 / 4) 2).1 ∧
    (PhysicsWorld.update (1 / 2) (1 / 4) 2).1 < 1 / 2 :=
  physicsWorld_update_fixed_timestep (1 / 2) (1 / 4) 2
    (by norm_num) (by norm_num) (by norm_num)

end FixedTimestep

section AddBody

open PhysicsWorld

/-- C9: `addBody` rejects a non-`PhysicsBody` argument by logging and
returning `none` with both collections unchanged (the function is
total, so no exception propagates), and appends a conforming body to
the static or dynamic collection per `isStatic`, returning it. -/
theorem addBody_contract (w : World) (arg : AddArg) :
    (arg = AddArg.notABody →
      (addBody w arg).2 = none ∧
      (addBody w arg).1.bodies = w.bodies ∧
      (addBody w arg).1.staticBodies = w.staticBodies ∧
      (addBody w arg).1.errorLog = w.errorLog ++
        ["Trying to add a non-PhysicsBody object to the physics world"]) ∧
    (∀ b : Body ℚ, arg = AddArg.body b →
      (addBody w arg).2 = some b ∧
      (b.isStatic = true →
        (addBody w arg).1.staticBodies = w.staticBodies ++ [b] ∧
        (addBody w arg).1.bodies = w.bodies) ∧
      (b.isStatic = false →
        (addBody w arg).1.bodies = w.bodies ++ [b] ∧
        (addBody w arg).1.staticBodies = w.staticBodies)) := by
  constructor
  · rintro rfl
    simp [addBody]
  · rintro b rfl
    simp only [addBody]
    by_cases hs : b.isStatic = true
    · simp [hs]
    · simp_all

/-- Witness for C9: adding a non-body and then a dynamic body to the
empty world. -/
theorem addBody_contract_witness :
    ((addBody ⟨[], [], []⟩ AddArg.notABody).2 = none ∧
      (addBody ⟨[], [], []⟩ AddArg.notABody).1.bodies = [] ∧
      (addBody ⟨[], [], []⟩ AddArg.notABody).1.staticBodies = [] ∧
      (addBody ⟨[], [], []⟩ AddArg.notABody).1.errorLog = [] ++
        ["Trying to add a non-PhysicsBody object to the physics world"]) ∧
    ((addBody ⟨[], [], []⟩ (AddArg.body risingBody)).2 = some risingBody ∧
      (risingBody.isStatic = false →
        (addBody ⟨[], [], []⟩ (AddArg.body risingBody)).1.bodies =
          [] ++ [risingBody] ∧
        (addBody ⟨[], [], []⟩ (AddArg.body risingBody)).1.staticBodies =
          [])) :=
  ⟨(addBody_contract ⟨[], [], []⟩ AddArg.notABody).1 rfl,
   ((addBody_contract ⟨[], [], []⟩ (AddArg.body risingBody)).2
      risingBody rfl).1,
   ((addBody_contract ⟨[], [], []⟩ (AddArg.body risingBody)).2
      risingBody rfl).2.2⟩

end AddBody

section PlayerJump

open Player

/-- Field accounting for `trackGroundState`: `onGround` is copied from
the physics body, the jump count is zeroed exactly on the
airborne-to-grounded transition, the last-grounded time is stamped
exactly on the grounded-to-airborne transition, everything else is
untouched. -/
theorem trackGroundState_fields (s : PlayerState) (now : ℚ) (g : Bool) :
    (trackGroundState s now g).onGround = g ∧
    (trackGroundState s now g).jumpCount =
      (if g = true ∧ s.onGround = false then 0 else s.jumpCount) ∧
    (trackGroundState s now g).maxJumps = s.maxJumps ∧
    (trackGroundState s now g).lastJumpTime = s.lastJumpTime ∧
    (trackGroundState s now g).jumpRequested = s.jumpRequested ∧
    (trackGroundState s now g).jumpBufferTime = s.jumpBufferTime ∧
    (trackGroundState s now g).velY = s.velY ∧
    (trackGroundState s now g).isDead = s.isDead ∧
    (trackGroundState s now g).lastGroundedTime =
      (if g = false ∧ s.onGround = true then now else s.lastGroundedTime) := by
  cases g <;> cases hog : s.onGround <;> simp [trackGroundState, hog]

/-- `processJump` produces a jump exactly when `canJumpNow` holds; on
success the jump count goes up by one and the vertical velocity is set
to the (possibly reduced) jump force, on failure the state is returned
unchanged. -/
theorem processJump_spec (s : PlayerState) (now : ℚ) (moving : Bool) :
    (¬ canJumpNow s now → processJump s now moving = (s, false)) ∧
    (canJumpNow s now →
      (processJump s now moving).2 = true ∧
      (processJump s now moving).1.jumpCount = s.jumpCount + 1 ∧
      (processJump s now moving).1.maxJumps = s.maxJumps ∧
      (processJump s now moving).1.jumpRequested = s.jumpRequested ∧
      ((processJump s now moving).1.velY = jumpForce ∨
        (processJump s now moving).1.velY = jumpForce * (9 / 10))) := by
  constructor
  · intro hno
    rw [canJumpNow] at hno
    push_neg at hno
    simp only [processJump]
    by_cases h1 : now - s.lastJumpTime < 100
    · rw [if_pos h1]
    · rw [if_neg h1]
      have hA := hno (not_lt.mp h1)
      by_cases h2 : (s.onGround = true ∨ now - s.lastGroundedTime < coyoteTime) ∧
          s.jumpCount = 0
      · exact absurd h2.2 (hA.1 h2.1)
      · rw [if_neg h2]
        by_cases h3 : ¬ (s.onGround = true ∨
            now - s.lastGroundedTime < coyoteTime) ∧ s.jumpCount < s.maxJumps
        · have hnc := h3.1
          push_neg at hnc
          have := hA.2 hnc
          omega
        · rw [if_neg h3]
  · rintro ⟨hcool, hcase⟩
    have h1 : ¬ (now - s.lastJumpTime < 100) := not_lt.mpr hcool
    simp only [processJump]
    rw [if_neg h1]
    rcases hcase with ⟨hfirst, hzero⟩ | ⟨hnofirst, hlt⟩
    · rw [if_pos ⟨hfirst, hzero⟩]
      simp [hzero]
    · rw [if_neg (fun hc => hnofirst hc.1), if_pos ⟨hnofirst, hlt⟩]
      simp

/-- C5: in every live `Player.update`, the final jump count equals the
count after the landing reset (zeroed exactly on the
airborne-to-grounded transition, otherwise kept) plus one exactly when
a jump was produced this update; consequently it is never reset while
continuously grounded or airborne, each successful jump adds exactly
one, and it never exceeds `maxJumps` (when `maxJumps ≥ 1`). -/
theorem player_jumpCount_transitions (s : PlayerState) (now : ℚ)
    (g moving : Bool) (hdead : s.isDead = false) :
    (updateJump s now g moving).1.jumpCount =
      (if g = true ∧ s.onGround = false then 0 else s.jumpCount) +
      (if (updateJump s now g moving).2 then 1 else 0) ∧
    (1 ≤ s.maxJumps → s.jumpCount ≤ s.maxJumps →
      (updateJump s now g moving).1.jumpCount ≤ s.maxJumps) := by
  have hf := trackGroundState_fields s now g
  set t := trackGroundState s now g with ht
  obtain ⟨hog, hjc, hmax, hljt, hreq, hbuf, hvel, hde, hlg⟩ := hf
  have key : updateJump s now g moving =
      (if t.jumpRequested = true then
        (if now - t.jumpBufferTime < jumpBufferWindow then
          (if (processJump t now moving).2 then
            ({ (processJump t now moving).1 with jumpRequested := false },
             true)
          else ((processJump t now moving).1, false))
        else ({ t with jumpRequested := false }, false))
      else (t, false)) := by
    simp only [updateJump, ht]
    rw [if_neg (by simp [hdead])]
  rw [key]
  by_cases hr : t.jumpRequested = true
  · rw [if_pos hr]
    by_cases hw : now - t.jumpBufferTime < jumpBufferWindow
    · rw [if_pos hw]
      by_cases hc : canJumpNow t now
      · have hp := (processJump_spec t now moving).2 hc
        rw [if_pos hp.1]
        have hcnt := hp.2.1
        constructor
        · simp [hcnt, hjc]
        · intro hone hle
          rcases hc.2 with ⟨-, hz⟩ | ⟨-, hlt⟩
          · simp [hcnt, hz]
            omega
          · rw [hmax] at hlt
            show (processJump t now moving).1.jumpCount ≤ s.maxJumps
            rw [hcnt]
            omega
      · have hp := (processJump_spec t now moving).1 hc
        rw [hp]
        constructor
        · simp [hjc]
        · intro hone hle
          simp [hjc]
          split_ifs <;> omega
    · rw [if_neg hw]
      constructor
      · simp [hjc]
      · intro hone hle
        simp [hjc]
        split_ifs <;> omega
  · rw [if_neg hr]
    constructor
    · simp [hjc]
    · intro hone hle
      simp [hjc]
      split_ifs <;> omega

/-- Witness for C5 at a concrete landing update that consumes a
buffered jump: the jump count ends at `0 + 1` and stays within
`maxJumps = 2`. -/
theorem player_jumpCount_transitions_witness :
    (updateJump ⟨false, 0, 2, 0, true, 900, 0, -1, false, false⟩
        1000 true false).1.jumpCount =
      (if true = true ∧
          (⟨false, 0, 2, 0, true, 900, 0, -1, false, false⟩ :
            PlayerState).onGround = false then 0
       else (⟨false, 0, 2, 0, true, 900, 0, -1, false, false⟩ :
            PlayerState).jumpCount) +
      (if (updateJump ⟨false, 0, 2, 0, true, 900, 0, -1, false, false⟩
          1000 true false).2 then 1 else 0) ∧
    (1 ≤ (⟨false, 0, 2, 0, true, 900, 0, -1, false, false⟩ :
        PlayerState).maxJumps →
      (⟨false, 0, 2, 0, true, 900, 0, -1, false, false⟩ :
        PlayerState).jumpCount ≤
        (⟨false, 0, 2, 0, true, 900, 0, -1, false, false⟩ :
          PlayerState).maxJumps →
      (updateJump ⟨false, 0, 2, 0, true, 900, 0, -1, false, false⟩
        1000 true false).1.jumpCount ≤
        (⟨false, 0, 2, 0, true, 900, 0, -1, false, false⟩ :
          PlayerState).maxJumps) :=
  player_jumpCount_transitions
    ⟨false, 0, 2, 0, true, 900, 0, -1, false, false⟩ 1000 true false rfl

/-- C4: a pending jump request is consumed (producing a jump, with the
vertical velocity set to the full or reduced jump force) by the first
live `Player.update` inside the 200 ms buffer window at which the jump
conditions hold; while the window is open but the conditions fail, the
request stays pending with no jump; once the window has elapsed, the
request is discarded and no jump is produced from it. -/
theorem player_jump_buffer (s : PlayerState) (now : ℚ) (g moving : Bool)
    (hdead : s.isDead = false) (hreq : s.jumpRequested = true) :
    (now - s.jumpBufferTime < jumpBufferWindow →
      canJumpNow (trackGroundState s now g) now →
      (updateJump s now g moving).2 = true ∧
      (updateJump s now g moving).1.jumpRequested = false ∧
      ((updateJump s now g moving).1.velY = jumpForce ∨
        (updateJump s now g moving).1.velY = jumpForce * (9 / 10))) ∧
    (now - s.jumpBufferTime < jumpBufferWindow →
      ¬ canJumpNow (trackGroundState s now g) now →
      (updateJump s now g moving).2 = false ∧
      (updateJump s now g moving).1.jumpRequested = true ∧
      (updateJump s now g moving).1.velY = s.velY) ∧
    (jumpBufferWindow ≤ now - s.jumpBufferTime →
      (updateJump s now g moving).2 = false ∧
      (updateJump s now g moving).1.jumpRequested = false ∧
      (updateJump s now g moving).1.velY = s.velY) := by
  have hf := trackGroundState_fields s now g
  set t := trackGroundState s now g with ht
  obtain ⟨hog, hjc, hmax, hljt, hreqt, hbuf, hvel, hde, hlg⟩ := hf
  have key : updateJump s now g moving =
      (if t.jumpRequested = true then
        (if now - t.jumpBufferTime < jumpBufferWindow then
          (if (processJump t now moving).2 then
            ({ (processJump t now moving).1 with jumpRequested := false },
             true)
          else ((processJump t now moving).1, false))
        else ({ t with jumpRequested := false }, false))
      else (t, false)) := by
    simp only [updateJump, ht]
    rw [if_neg (by simp [hdead])]
  have hrt : t.jumpRequested = true := by rw [hreqt, hreq]
  rw [key, if_pos hrt, hbuf]
  refine ⟨fun hwin hc => ?_, fun hwin hc => ?_, fun hexp => ?_⟩
  · rw [if_pos hwin]
    have hp := (processJump_spec t now moving).2 hc
    rw [if_pos hp.1]
    refine ⟨rfl, rfl, ?_⟩
    show (processJump t now moving).1.velY = jumpForce ∨
      (processJump t now moving).1.velY = jumpForce * (9 / 10)
    exact hp.2.2.2.2
  · rw [if_pos hwin]
    have hp := (processJump_spec t now moving).1 hc
    rw [hp]
    exact ⟨rfl, hrt, hvel⟩
  · rw [if_neg (not_lt.mpr hexp)]
    exact ⟨rfl, rfl, hvel⟩

/-- Witness for C4: a buffered request (pressed at 900 ms) is consumed
at the landing update at 1000 ms. -/
theorem player_jump_buffer_witness :
    ((1000 : ℚ) -
        (⟨false, 0, 2, 0, true, 900, 0, -1, false, false⟩ :
          PlayerState).jumpBufferTime < jumpBufferWindow) ∧
    canJumpNow
      (trackGroundState ⟨false, 0, 2, 0, true, 900, 0, -1, false, false⟩
        1000 true) 1000 ∧
    ((updateJump ⟨false, 0, 2, 0, true, 900, 0, -1, false, false⟩
        1000 true false).2 = true ∧
      (updateJump ⟨false, 0, 2, 0, true, 900, 0, -1, false, false⟩
        1000 true false).1.jumpRequested = false ∧
      ((updateJump ⟨false, 0, 2, 0, true, 900, 0, -1, false, false⟩
          1000 true false).1.velY = jumpForce ∨
        (updateJump ⟨false, 0, 2, 0, true, 900, 0, -1, false, false⟩
          1000 true false).1.velY = jumpForce * (9 / 10))) :=
  ⟨by norm_num [jumpBufferWindow],
   by norm_num [canJumpNow, trackGroundState, coyoteTime],
   (player_jump_buffer ⟨false, 0, 2, 0, true, 900, 0, -1, false, false⟩
      1000 true false rfl rfl).1
     (by norm_num [jumpBufferWindow])
     (by norm_num [canJumpNow, trackGroundState, coyoteTime])⟩

section Resolver

open PhysicsWorld

/-- The JS default `a || 0` is the identity on numbers. -/
theorem jsOr_zero {α : Type} [Field α] [DecidableEq α] (a : α) :
    jsOr a 0 = a := by
  unfold jsOr
  split <;> simp_all

set_option maxHeartbeats 1600000 in
/-- C1: on the explicit-contact-info path of `resolveCollision`, a
separating pair (`vRel > 0`) is left completely unchanged, and for an
approaching pair with positive inverse-mass sum the post-impulse
velocities are exactly `vA + j·invMassA·normal` and
`vB − j·invMassB·normal` with
`j = −(1 + min(restitutionA, restitutionB)) · vRel / (invMassA + invMassB)`. -/
theorem resolveCollision_explicit_formulas (bodyA bodyB : Body ℝ)
    (infoA infoB : Option CollisionInfo) (info : CollisionInfo)
    (hinfo : effectiveInfo infoA infoB = some info)
    (hA : 0 ≤ bodyA.invMass) (hB : 0 ≤ bodyB.invMass) :
    (0 < (bodyA.velocity.sub bodyB.velocity).dot info.normal →
      resolveCollision bodyA bodyB infoA infoB = (bodyA, bodyB)) ∧
    ((bodyA.velocity.sub bodyB.velocity).dot info.normal ≤ 0 →
      0 < bodyA.invMass + bodyB.invMass →
      (resolveCollision bodyA bodyB infoA infoB).1.velocity =
        bodyA.velocity.add (Vec3.smul
          (-(1 + min bodyA.restitution bodyB.restitution) *
              ((bodyA.velocity.sub bodyB.velocity).dot info.normal) /
              (bodyA.invMass + bodyB.invMass) * bodyA.invMass)
          info.normal) ∧
      (resolveCollision bodyA bodyB infoA infoB).2.velocity =
        bodyB.velocity.sub (Vec3.smul
          (-(1 + min bodyA.restitution bodyB.restitution) *
              ((bodyA.velocity.sub bodyB.velocity).dot info.normal) /
              (bodyA.invMass + bodyB.invMass) * bodyB.invMass)
          info.normal)) := by
  constructor
  · intro hpos
    simp only [resolveCollision, hinfo, resolveWithInfo]
    rw [if_pos hpos]
  · intro hneg hsum
    have hsumne : bodyA.invMass + bodyB.invMass ≠ 0 := ne_of_gt hsum
    simp only [resolveCollision, hinfo, resolveWithInfo, jsOr_zero]
    rw [if_neg (not_lt.mpr hneg), if_neg hsumne]
    have hAz : ¬ 0 < bodyA.invMass → bodyA.invMass = 0 := fun h =>
      le_antisymm (not_lt.mp h) hA
    have hBz : ¬ 0 < bodyB.invMass → bodyB.invMass = 0 := fun h =>
      le_antisymm (not_lt.mp h) hB
    constructor
    · split_ifs with h1 h2 h3 h4 h5 h6 h7 h8 h9 h10 h11 h12 h13 h14 <;>
        simp_all [Vec3.add, Vec3.smul] <;>
        refine ⟨?_, ?_, ?_⟩ <;> field_simp <;> ring
    · split_ifs with h1 h2 h3 h4 h5 h6 h7 h8 h9 h10 h11 h12 h13 h14 <;>
        simp_all [Vec3.sub, Vec3.smul] <;>
        refine ⟨?_, ?_, ?_⟩ <;> field_simp <;> ring

end Resolver

section ResolverMore

open PhysicsWorld

/-- Witness for C1: a falling dynamic body against a static floor with
an upward contact normal. -/
theorem resolveCollision_explicit_formulas_witness :
    ((fallingBodyA.velocity.sub staticBodyB.velocity).dot
        upContact.normal ≤ 0) ∧
    (0 < fallingBodyA.invMass + staticBodyB.invMass) ∧
    ((resolveCollision fallingBodyA staticBodyB
        (some upContact) none).1.velocity =
      fallingBodyA.velocity.add (Vec3.smul
        (-(1 + min fallingBodyA.restitution staticBodyB.restitution) *
            ((fallingBodyA.velocity.sub staticBodyB.velocity).dot
              upContact.normal) /
            (fallingBodyA.invMass + staticBodyB.invMass) *
            fallingBodyA.invMass)
        upContact.normal) ∧
      (resolveCollision fallingBodyA staticBodyB
          (some upContact) none).2.velocity =
        staticBodyB.velocity.sub (Vec3.smul
          (-(1 + min fallingBodyA.restitution staticBodyB.restitution) *
              ((fallingBodyA.velocity.sub staticBodyB.velocity).dot
                upContact.normal) /
              (fallingBodyA.invMass + staticBodyB.invMass) *
              staticBodyB.invMass)
          upContact.normal)) :=
  ⟨by norm_num [fallingBodyA, staticBodyB, upContact, Vec3.dot, Vec3.sub],
   by norm_num [fallingBodyA, staticBodyB],
   (resolveCollision_explicit_formulas fallingBodyA staticBodyB
      (some upContact) none upContact rfl
      (by norm_num [fallingBodyA]) (by norm_num [staticBodyB])).2
     (by norm_num [fallingBodyA, staticBodyB, upContact, Vec3.dot, Vec3.sub])
     (by norm_num [fallingBodyA, staticBodyB])⟩

end ResolverMore

section ResolverStatic

open PhysicsWorld

/-- On the explicit-info path, a body with zero inverse mass keeps its
velocity and position, and a zero inverse-mass sum skips the whole
resolution. -/
theorem resolveWithInfo_static (bodyA bodyB : Body ℝ)
    (info : CollisionInfo) :
    (bodyA.invMass = 0 →
      (resolveWithInfo bodyA bodyB info).1.velocity = bodyA.velocity ∧
      (resolveWithInfo bodyA bodyB info).1.position = bodyA.position) ∧
    (bodyB.invMass = 0 →
      (resolveWithInfo bodyA bodyB info).2.velocity = bodyB.velocity ∧
      (resolveWithInfo bodyA bodyB info).2.position = bodyB.position) ∧
    (bodyA.invMass + bodyB.invMass = 0 →
      resolveWithInfo bodyA bodyB info = (bodyA, bodyB)) := by
  refine ⟨fun hA0 => ?_, fun hB0 => ?_, fun hs => ?_⟩ <;>
    simp only [resolveWithInfo, jsOr_zero] <;>
    split_ifs <;> simp_all

set_option maxHeartbeats 3200000 in
/-- On the sphere-fallback path, a body with zero inverse mass keeps
its velocity and position, and a zero inverse-mass sum skips the whole
resolution. -/
theorem resolveFallback_static (bodyA bodyB : Body ℝ) :
    (bodyA.invMass = 0 →
      (resolveFallback bodyA bodyB).1.velocity = bodyA.velocity ∧
      (resolveFallback bodyA bodyB).1.position = bodyA.position) ∧
    (bodyB.invMass = 0 →
      (resolveFallback bodyA bodyB).2.velocity = bodyB.velocity ∧
      (resolveFallback bodyA bodyB).2.position = bodyB.position) ∧
    (bodyA.invMass + bodyB.invMass = 0 →
      resolveFallback bodyA bodyB = (bodyA, bodyB)) := by
  refine ⟨fun hA0 => ?_, fun hB0 => ?_, fun hs => ?_⟩ <;>
    simp only [resolveFallback, jsOr_zero] <;>
    split_ifs <;> simp_all

/-- C8: in every `resolveCollision` call — explicit-contact-info path
or sphere fallback — a body whose inverse mass is 0 keeps its velocity
and position, and when the inverse-mass sum is 0 the whole resolution
is skipped with neither body changed. -/
theorem resolveCollision_static_bodies (bodyA bodyB : Body ℝ)
    (infoA infoB : Option CollisionInfo) :
    (bodyA.invMass = 0 →
      (resolveCollision bodyA bodyB infoA infoB).1.velocity =
        bodyA.velocity ∧
      (resolveCollision bodyA bodyB infoA infoB).1.position =
        bodyA.position) ∧
    (bodyB.invMass = 0 →
      (resolveCollision bodyA bodyB infoA infoB).2.velocity =
        bodyB.velocity ∧
      (resolveCollision bodyA bodyB infoA infoB).2.position =
        bodyB.position) ∧
    (bodyA.invMass + bodyB.invMass = 0 →
      resolveCollision bodyA bodyB infoA infoB = (bodyA, bodyB)) := by
  rcases h : effectiveInfo infoA infoB with _ | info <;>
    simp only [resolveCollision, h]
  · exact resolveFallback_static bodyA bodyB
  · exact resolveWithInfo_static bodyA bodyB info

/-- Witness for C8: the static floor body is untouched by the
resolution against the falling body. -/
theorem resolveCollision_static_bodies_witness :
    staticBodyB.invMass = 0 ∧
    ((resolveCollision fallingBodyA staticBodyB
        (some upContact) none).2.velocity = staticBodyB.velocity ∧
      (resolveCollision fallingBodyA staticBodyB
        (some upContact) none).2.position = staticBodyB.position) :=
  ⟨by norm_num [staticBodyB],
   (resolveCollision_static_bodies fallingBodyA staticBodyB
      (some upContact) none).2.1 (by norm_num [staticBodyB])⟩

end ResolverStatic

section MovementController

/-- `‖c • v‖ = |c| ‖v‖` for the embedded vectors. -/
theorem Vec3.length_smul (c : ℝ) (v : Vec3 ℝ) :
    (Vec3.smul c v).length = |c| * v.length := by
  simp only [Vec3.length, Vec3.lengthSq, Vec3.smul]
  rw [show c * v.x * (c * v.x) + c * v.y * (c * v.y) + c * v.z * (c * v.z)
      = c ^ 2 * (v.x * v.x + v.y * v.y + v.z * v.z) by ring]
  rw [Real.sqrt_mul (sq_nonneg c), Real.sqrt_sq_eq_abs]

/-- Dropping the vertical component cannot increase the length. -/
theorem Vec3.horiz_length_le (v : Vec3 ℝ) :
    (⟨v.x, 0, v.z⟩ : Vec3 ℝ).length ≤ v.length := by
  simp only [Vec3.length, Vec3.lengthSq]
  apply Real.sqrt_le_sqrt
  nlinarith [sq_nonneg v.y]

/-- The maximum-speed clamp bounds the length by `maxSpeed`. -/
theorem clampMax_length_le (v : Vec3 ℝ) :
    (Movement.clampMax v).length ≤ Movement.maxSpeed := by
  simp only [Movement.clampMax]
  split_ifs with h
  · rw [Vec3.length_smul]
    have hpos : 0 < v.length :=
      lt_trans (by norm_num [Movement.maxSpeed]) h
    rw [abs_of_pos (div_pos (by norm_num [Movement.maxSpeed]) hpos)]
    rw [div_mul_cancel₀ _ (ne_of_gt hpos)]
  · exact not_lt.mp h

/-- C6: when `Movement.update` runs with move input, a direction change
active, and horizontal speed above 2, it delegates to
`applyAccelerationWithMomentum` with target velocity
`moveDirection * (runSpeed if sprinting else walkSpeed)`, and the new
velocity before the max-speed clamp is exactly
`currentV * 0.5 + targetVelocity * 0.5` (momentum retention 1/2). -/
theorem movement_momentum_blend (isSprinting onGround isJumping : Bool)
    (jumpCount : ℕ) (hasChangedDirection : Bool)
    (moveDirection velocity : Vec3 ℝ) (dt : ℝ)
    (hcd : hasChangedDirection = true)
    (hspeed : 2 < (⟨velocity.x, 0, velocity.z⟩ : Vec3 ℝ).length) :
    Movement.update true isSprinting onGround isJumping jumpCount
        hasChangedDirection moveDirection velocity dt =
      Movement.applyAccelerationWithMomentum onGround isJumping jumpCount
        hasChangedDirection moveDirection
        (Vec3.smul
          (if isSprinting then Movement.runSpeed else Movement.walkSpeed)
          moveDirection) velocity dt ∧
    Movement.preClampVelocity onGround hasChangedDirection
        (Vec3.smul
          (if isSprinting then Movement.runSpeed else Movement.walkSpeed)
          moveDirection) velocity dt =
      (Vec3.smul (1 / 2) (⟨velocity.x, 0, velocity.z⟩ : Vec3 ℝ)).add
        (Vec3.smul (1 / 2)
          (Vec3.smul
            (if isSprinting then Movement.runSpeed else Movement.walkSpeed)
            moveDirection)) := by
  constructor
  · rfl
  · simp only [Movement.preClampVelocity]
    rw [if_pos ⟨hcd, hspeed⟩]
    simp only [Movement.momentumRetention, Vec3.smul, Vec3.add]
    norm_num

/-- Witness for C6: sharp turn at walking speed 3 toward `+x`. -/
theorem movement_momentum_blend_witness :
    (2 : ℝ) < (⟨(3 : ℝ), 0, 0⟩ : Vec3 ℝ).length ∧
    Movement.preClampVelocity true true
        (Vec3.smul
          (if false then Movement.runSpeed else Movement.walkSpeed)
          ⟨1, 0, 0⟩) ⟨3, 0, 0⟩ (1 / 60) =
      (Vec3.smul (1 / 2) (⟨(3 : ℝ), 0, 0⟩ : Vec3 ℝ)).add
        (Vec3.smul (1 / 2)
          (Vec3.smul
            (if false then Movement.runSpeed else Movement.walkSpeed)
            ⟨1, 0, 0⟩)) := by
  have h3 : (⟨(3 : ℝ), 0, 0⟩ : Vec3 ℝ).length = 3 := by
    simp only [Vec3.length, Vec3.lengthSq]
    rw [show ((3 : ℝ) * 3 + 0 * 0 + 0 * 0) = 3 ^ 2 by norm_num]
    exact Real.sqrt_sq (by norm_num)
  have hsp : (2 : ℝ) < (⟨(3 : ℝ), 0, 0⟩ : Vec3 ℝ).length := by
    rw [h3]; norm_num
  exact ⟨hsp,
    (movement_momentum_blend false true false 0 true ⟨1, 0, 0⟩ ⟨3, 0, 0⟩
      (1 / 60) rfl hsp).2⟩

end MovementController

section MovementBounds

/-- C7 (amended): every `Movement.update` writes only the X and Z
velocity components (the Y component is always preserved), and with
move input present the resulting horizontal speed is at most
`maxSpeed` *except* on the update where the first-jump forward boost
fires (`isJumping` with `jumpCount = 1`), which is applied after the
clamp and can push the speed above the cap. -/
theorem movement_update_only_xz_and_capped
    (hasInput isSprinting onGround isJumping : Bool) (jumpCount : ℕ)
    (hasChangedDirection : Bool) (moveDirection velocity : Vec3 ℝ)
    (dt : ℝ) :
    (Movement.update hasInput isSprinting onGround isJumping jumpCount
        hasChangedDirection moveDirection velocity dt).1.y = velocity.y ∧
    (hasInput = true → ¬ (isJumping = true ∧ jumpCount = 1) →
      (⟨(Movement.update hasInput isSprinting onGround isJumping jumpCount
            hasChangedDirection moveDirection velocity dt).1.x, 0,
          (Movement.update hasInput isSprinting onGround isJumping jumpCount
            hasChangedDirection moveDirection velocity dt).1.z⟩ :
        Vec3 ℝ).length ≤ Movement.maxSpeed) := by
  constructor
  · simp only [Movement.update, Movement.applyAccelerationWithMomentum,
      Movement.applyStopForce]
    split_ifs <;> rfl
  · intro hin hnob
    simp only [Movement.update, if_pos hin,
      Movement.applyAccelerationWithMomentum, if_neg hnob]
    exact le_trans
      (Vec3.horiz_length_le
        (Movement.clampMax (Movement.preClampVelocity onGround
          hasChangedDirection
          (Vec3.smul
            (if isSprinting then Movement.runSpeed else Movement.walkSpeed)
            moveDirection) velocity dt)))
      (clampMax_length_le _)

/-- Witness for the amended C7: a standing start with input and no
pending jump boost stays within the cap, and the vertical velocity is
untouched. -/
theorem movement_update_only_xz_and_capped_witness :
    (Movement.update true false true false 0 false ⟨0, 0, -1⟩
        ⟨0, -3, 0⟩ (1 / 60)).1.y = (⟨(0 : ℝ), -3, 0⟩ : Vec3 ℝ).y ∧
    ((⟨(Movement.update true false true false 0 false ⟨0, 0, -1⟩
          ⟨0, -3, 0⟩ (1 / 60)).1.x, 0,
        (Movement.update true false true false 0 false ⟨0, 0, -1⟩
          ⟨0, -3, 0⟩ (1 / 60)).1.z⟩ : Vec3 ℝ).length ≤ Movement.maxSpeed) :=
  ⟨(movement_update_only_xz_and_capped true false true false 0 false
      ⟨0, 0, -1⟩ ⟨0, -3, 0⟩ (1 / 60)).1,
   (movement_update_only_xz_and_capped true false true false 0 false
      ⟨0, 0, -1⟩ ⟨0, -3, 0⟩ (1 / 60)).2 rfl (by simp)⟩

/-- C7 counterexample: with move input present (sprinting, sharp turn
at full speed 12, first-jump boost pending), the post-update horizontal
speed is 12.2 > maxSpeed = 12 — the forward jump boost is added after
the clamp. -/
theorem movement_update_speed_cap_counterexample :
    (Movement.update true true true true 1 true ⟨0, 0, -1⟩ ⟨0, 0, -12⟩
        (1 / 60)).1 = ⟨0, 0, -61 / 5⟩ ∧
    Movement.maxSpeed <
      (⟨(Movement.update true true true true 1 true ⟨0, 0, -1⟩
            ⟨0, 0, -12⟩ (1 / 60)).1.x, 0,
          (Movement.update true true true true 1 true ⟨0, 0, -1⟩
            ⟨0, 0, -12⟩ (1 / 60)).1.z⟩ : Vec3 ℝ).length := by
  have h12 : (⟨(0 : ℝ), 0, -12⟩ : Vec3 ℝ).length = 12 := by
    simp only [Vec3.length, Vec3.lengthSq]
    rw [show ((0 : ℝ) * 0 + 0 * 0 + -12 * -12) = 12 ^ 2 by norm_num]
    exact Real.sqrt_sq (by norm_num)
  have hpre : Movement.preClampVelocity true true
      (Vec3.smul Movement.runSpeed ⟨0, 0, -1⟩) ⟨0, 0, -12⟩ (1 / 60) =
      ⟨0, 0, -11⟩ := by
    simp only [Movement.preClampVelocity]
    rw [if_pos ⟨trivial, by rw [h12]; norm_num⟩]
    simp only [Movement.momentumRetention, Movement.runSpeed, Vec3.smul,
      Vec3.add]
    norm_num
  have h11 : (⟨(0 : ℝ), 0, -11⟩ : Vec3 ℝ).length = 11 := by
    simp only [Vec3.length, Vec3.lengthSq]
    rw [show ((0 : ℝ) * 0 + 0 * 0 + -11 * -11) = 11 ^ 2 by norm_num]
    exact Real.sqrt_sq (by norm_num)
  have hclamp : Movement.clampMax ⟨(0 : ℝ), 0, -11⟩ = ⟨0, 0, -11⟩ := by
    simp only [Movement.clampMax]
    rw [if_neg (by rw [h11]; norm_num [Movement.maxSpeed])]
  have hstep : Movement.update true true true true 1 true ⟨0, 0, -1⟩
      ⟨0, 0, -12⟩ (1 / 60) =
      Movement.applyAccelerationWithMomentum true true 1 true ⟨0, 0, -1⟩
        (Vec3.smul Movement.runSpeed ⟨0, 0, -1⟩) ⟨0, 0, -12⟩ (1 / 60) := rfl
  have hupd : (Movement.update true true true true 1 true ⟨0, 0, -1⟩
      ⟨0, 0, -12⟩ (1 / 60)).1 = ⟨0, 0, -61 / 5⟩ := by
    rw [hstep]
    simp only [Movement.applyAccelerationWithMomentum]
    rw [hpre, hclamp, if_pos (And.intro trivial trivial)]
    simp only [Movement.jumpBoostForward, Movement.walkSpeed, Vec3.smul]
    norm_num
  refine ⟨hupd, ?_⟩
  rw [hupd]
  show Movement.maxSpeed < (⟨(0 : ℝ), 0, -61 / 5⟩ : Vec3 ℝ).length
  have hlen : (⟨(0 : ℝ), 0, -61 / 5⟩ : Vec3 ℝ).length = 61 / 5 := by
    simp only [Vec3.length, Vec3.lengthSq]
    rw [show ((0 : ℝ) * 0 + 0 * 0 + -61 / 5 * (-61 / 5)) = (61 / 5) ^ 2
      by norm_num]
    exact Real.sqrt_sq (by norm_num)
  rw [hlen]
  norm_num [Movement.maxSpeed]

end MovementBounds
